import Mathlib

/-!
A shallow embedding of patrickhirsh/LEDController (Arduino firmware driving
addressable LED strips), together with proofs about the embedded operations.

The embedding follows `src/LEDController/LEDController.ino` (two firmware
variants concatenated in one file; the first variant, lines 1-456, is the one
cited by the spec for the dispatcher / brightness / visualizer behaviour, and
the second variant supplies `sampleAudio`), and `src/unnamed/part_000` for the
RGB-cycle hue modifier `DynamicHueModifier`.

Machine bytes (`byte` / `uint8_t` in the C source) are modelled as `Nat`; a C
arithmetic step that narrows an `int` back into a byte is modelled with an
explicit `% 256`.  C integer promotion means comparisons such as
`rawAudio*2 > 255` and `ledBrightness*GPU_SCALE_FACTOR` are computed at full
integer width, so those appear without any truncation, exactly as in C.
-/

namespace LEDController

/-- A pixel of the strip: the FastLED `CRGB` struct, three 8-bit channels. -/
structure CRGB where
  red : Nat
  green : Nat
  blue : Nat
  deriving DecidableEq, Repr

/-- The pixel buffer `leds` (112 pixels; indices `0-99` back LEDs, `100-111`
GPU LEDs).  Modelled as a total map from index to pixel; only indices
`< 112` are meaningful. -/
def Buf : Type := Nat → CRGB

/-- Point update of a pixel buffer (an assignment `leds[j] = p`). -/
def setPix (buf : Buf) (j : Nat) (p : CRGB) : Buf :=
  fun i => if i = j then p else buf i

/-- Buffer state after `FastLED.clear()`: every pixel zero. -/
def clearBuf : Buf := fun _ => ⟨0, 0, 0⟩

/-! ## Audio sampling (`sampleAudio`, second firmware variant, and the inline
normalization in `dynamicVisualizer`, first variant) -/

/-- The doubling-and-saturating normalization applied to a raw serial byte in
`sampleAudio`: `if (rawAudio*2 > 255) rawAudio = 255; else rawAudio *= 2;`.
The comparison is at full integer width (C promotes the byte to `int`). -/
def normalizeAudio (rawAudio : Nat) : Nat :=
  if rawAudio * 2 > 255 then 255 else rawAudio * 2

/-- `sampleAudio(byte rawAudio)`: normalizes the raw byte, pushes it to the
front of the 100-entry `audioSamples` ring buffer (older entries shift back,
the oldest is discarded) and returns it as the new `audioSample`. -/
def sampleAudio (rawAudio : Nat) (audioSamples : List Nat) : Nat × List Nat :=
  let r := normalizeAudio rawAudio
  (r, r :: audioSamples.take 99)

/-- The inline copy of the normalization in `dynamicVisualizer`
(`if (audioIn*2 > 255) audioIn = 255; else audioIn *= 2;`). -/
def dvNormalize (audioIn : Nat) : Nat :=
  if audioIn * 2 > 255 then 255 else audioIn * 2

/-! ## HSV hue shifter (`dynamicHueShift`, first firmware variant) -/

/-- The global `dynamicHue : CHSV` (hue/saturation/value bytes). -/
structure CHSV where
  hue : Nat
  sat : Nat
  val : Nat
  deriving DecidableEq, Repr

/-- One iteration of the `dynamicHueShift` loop body on the hue byte:
`if (dynamicHue.hue == 255) dynamicHue.hue = 0; else dynamicHue.hue++;`. -/
def hueStep (h : Nat) : Nat := if h = 255 then 0 else h + 1

/-- The `dynamicHueShift` loop (`for (int i = strength; i > 0; i--)`) acting on
the hue byte: `strength` iterations of `hueStep`. -/
def dynamicHueShiftVal : Nat → Nat → Nat
  | 0, h => h
  | n + 1, h => dynamicHueShiftVal n (hueStep h)

/-- `dynamicHueShift(int strength)` on the full `dynamicHue` state: only the
`hue` field is touched. -/
def dynamicHueShift (strength : Nat) (st : CHSV) : CHSV :=
  { st with hue := dynamicHueShiftVal strength st.hue }

/-! ## Brightness clamp (`setGlobalBrightness`, first firmware variant) -/

/-- `BRIGHTNESS_0` .. `BRIGHTNESS_4`: the five global brightness presets. -/
def BRIGHTNESS_0 : Nat := 5
def BRIGHTNESS_1 : Nat := 20
def BRIGHTNESS_2 : Nat := 65
def BRIGHTNESS_3 : Nat := 127
def BRIGHTNESS_4 : Nat := 255

/-- `GPU_SCALE_FACTOR`: GPU LEDs (indices 100-111) are allowed a brightness
ceiling `GPU_SCALE_FACTOR` times higher than the back LEDs. -/
def GPU_SCALE_FACTOR : Nat := 5

/-- `setGlobalBrightness()`: for back LEDs (`i < 100`) each channel above
`ledBrightness` is cut to `ledBrightness`; for GPU LEDs (`100 <= i < 112`)
each channel above `ledBrightness*GPU_SCALE_FACTOR` is cut to that product.
The two source loops perform independent per-pixel, per-channel updates, so
they are rendered pointwise.  The comparison against
`ledBrightness*GPU_SCALE_FACTOR` happens at full `int` width; storing that
product back into the 8-bit channel narrows it mod 256 (in every actual call
the store only fires when the product is below 256, so the `% 256` is the
faithful rendering of the C byte store, not a behavioural change). -/
def setGlobalBrightness (ledBrightness : Nat) (leds : Buf) : Buf :=
  fun i =>
    if i < 100 then
      ⟨if (leds i).red > ledBrightness then ledBrightness else (leds i).red,
       if (leds i).green > ledBrightness then ledBrightness else (leds i).green,
       if (leds i).blue > ledBrightness then ledBrightness else (leds i).blue⟩
    else if i < 112 then
      ⟨if (leds i).red > ledBrightness * GPU_SCALE_FACTOR then
          ledBrightness * GPU_SCALE_FACTOR % 256 else (leds i).red,
       if (leds i).green > ledBrightness * GPU_SCALE_FACTOR then
          ledBrightness * GPU_SCALE_FACTOR % 256 else (leds i).green,
       if (leds i).blue > ledBrightness * GPU_SCALE_FACTOR then
          ledBrightness * GPU_SCALE_FACTOR % 256 else (leds i).blue⟩
    else leds i

/-! ## The outward ripple shift (`dynamicVisualizer`, first firmware variant):

    for (int i = 0; i < 37; i++)  leds[i] = leds[i+1];
    for (int i = 74; i > 37; i--) leds[i] = leds[i-1];
-/

/-- The ascending low-side copy pass, started at `i = 0`. -/
def shiftLowLoop (buf : Buf) (i : Nat) : Buf :=
  if i < 37 then shiftLowLoop (setPix buf i (buf (i + 1))) (i + 1) else buf
  termination_by 37 - i

/-- The descending high-side copy pass, started at `i = 74`. -/
def shiftHighLoop (buf : Buf) (i : Nat) : Buf :=
  if i > 37 then shiftHighLoop (setPix buf i (buf (i - 1))) (i - 1) else buf
  termination_by i

/-- Both ripple passes of `dynamicVisualizer`, in source order. -/
def rippleShift (buf : Buf) : Buf := shiftHighLoop (shiftLowLoop buf 0) 74

/-! ## The effect of a `dynamicVisualizer` tick on the dynamic hue state
(first firmware variant, lines 138-159): read and normalize the audio byte,
shift the hue by an audio-dependent strength, then assign
`dynamicHue.val = audioIn` directly. -/

/-- Projection of one data-available `dynamicVisualizer` tick onto the
persistent `dynamicHue` state (the buffer writes in the tick do not touch
`dynamicHue`, and no other statement of the tick mentions it). -/
def dynamicVisualizerHue (st : CHSV) (rawAudio : Nat) : CHSV :=
  let audioIn := if rawAudio * 2 > 255 then 255 else rawAudio * 2
  let st1 := if audioIn > 200 then dynamicHueShift (audioIn / 15) st
             else dynamicHueShift (audioIn / 70) st
  { st1 with val := audioIn }

/-! ## Control state, brightness adjustment and the IR dispatcher
(first firmware variant) -/

/-- The mutable control globals: `ledMode`, `ledStatus` (1 = on, 0 = off),
`ledBrightness`, `ledBrightnessPreset` (0-4) and the pixel buffer `leds`. -/
structure CtrlState where
  ledMode : Nat
  ledStatus : Nat
  ledBrightness : Nat
  ledBrightnessPreset : Nat
  leds : Buf

/-- Range fill `for (int i = lo; i < hi; i++) leds[i] = p;` (independent
per-index writes, rendered pointwise). -/
def fillRange (buf : Buf) (lo hi : Nat) (p : CRGB) : Buf :=
  fun i => if lo ≤ i ∧ i < hi then p else buf i

/-- `off()`: `FastLED.clear(); FastLED.show();` — clears the pixel buffer
(the control fields are untouched). -/
def offLeds (st : CtrlState) : CtrlState := { st with leds := clearBuf }

/-- `adjustGlobalBrightness(int upOrDown)` (first firmware variant,
`upOrDown = 1` steps the 0-4 preset up, `0` steps it down, both clamped),
then briefly displays the new ceiling on a preset-dependent fixed range of
pixels and calls `off()`.  The second component collects the frames passed to
`FastLED.show()`, in order: the preview frame, then the cleared frame shown
by `off()`. -/
def adjustGlobalBrightness (upOrDown : Nat) (st : CtrlState) : CtrlState × List Buf :=
  let p0 := st.ledBrightnessPreset
  let p1 := if upOrDown = 0 then (if p0 > 0 then p0 - 1 else 0) else p0
  let p2 := if upOrDown = 1 then (if p1 < 4 then p1 + 1 else 4) else p1
  if p2 = 0 then
    let preview := fillRange st.leds 100 112 ⟨BRIGHTNESS_0, BRIGHTNESS_0, BRIGHTNESS_0⟩
    ({ st with ledBrightnessPreset := p2, ledBrightness := BRIGHTNESS_0, leds := clearBuf },
     [preview, clearBuf])
  else if p2 = 1 then
    let preview := fillRange st.leds 75 112 ⟨BRIGHTNESS_1, BRIGHTNESS_1, BRIGHTNESS_1⟩
    ({ st with ledBrightnessPreset := p2, ledBrightness := BRIGHTNESS_1, leds := clearBuf },
     [preview, clearBuf])
  else if p2 = 2 then
    let preview := fillRange st.leds 50 112 ⟨BRIGHTNESS_2, BRIGHTNESS_2, BRIGHTNESS_2⟩
    ({ st with ledBrightnessPreset := p2, ledBrightness := BRIGHTNESS_2, leds := clearBuf },
     [preview, clearBuf])
  else if p2 = 3 then
    let preview := fillRange (fillRange st.leds 50 112 ⟨BRIGHTNESS_3, BRIGHTNESS_3, BRIGHTNESS_3⟩)
                     0 25 ⟨BRIGHTNESS_3, BRIGHTNESS_3, BRIGHTNESS_3⟩
    ({ st with ledBrightnessPreset := p2, ledBrightness := BRIGHTNESS_3, leds := clearBuf },
     [preview, clearBuf])
  else if p2 = 4 then
    let preview := fillRange st.leds 0 112 ⟨BRIGHTNESS_4, BRIGHTNESS_4, BRIGHTNESS_4⟩
    ({ st with ledBrightnessPreset := p2, ledBrightness := BRIGHTNESS_4, leds := clearBuf },
     [preview, clearBuf])
  else
    ({ st with ledBrightnessPreset := p2 }, [])

/-- The ten no-op codes of the `IRHandler` switch (repeat, power, transport
controls), each an explicit `break`. -/
def irNoopCodes : List Nat :=
  [0xFFFFFFFF, 0xFFA25D, 0xFFE21D, 0xFF9867, 0xFFB04F,
   0xFFC23D, 0xFF22DD, 0xFF02FD, 0xFF629D, 0xFFA857]

/-- The ten mode-select codes, in digit order 0-9. -/
def irModeCodes : List Nat :=
  [0xFF6897, 0xFF30CF, 0xFF18E7, 0xFF7A85, 0xFF10EF,
   0xFF38C7, 0xFF5AA5, 0xFF42BD, 0xFF4AB5, 0xFF52AD]

/-- Every code appearing in the `IRHandler` switch: the ten no-ops, the two
brightness arrows, the ten mode selects. -/
def irTableCodes : List Nat :=
  irNoopCodes ++ [0xFF906F, 0xFFE01F] ++ irModeCodes

/-- `IRHandler()` acting on the decoded 32-bit `results.value`: the exact
switch from the source.  No-op codes leave everything unchanged; the two
arrow codes invoke `adjustGlobalBrightness`; the digit codes set
`ledMode`/`ledStatus`; the `default` case runs `off()` and forces
`ledStatus = 0`.  The second component again lists the frames shown.  (The
trailing `delay(100)` debounce has no effect on this state.) -/
def IRHandler (code : Nat) (st : CtrlState) : CtrlState × List Buf :=
  if code = 0xFFFFFFFF then (st, [])         -- Repeat
  else if code = 0xFFA25D then (st, [])      -- Power
  else if code = 0xFFE21D then (st, [])      -- Func/Stop
  else if code = 0xFF9867 then (st, [])      -- EQ
  else if code = 0xFFB04F then (st, [])      -- ST/REPT
  else if code = 0xFFC23D then (st, [])      -- Skip Forward
  else if code = 0xFF22DD then (st, [])      -- Skip Back
  else if code = 0xFF02FD then (st, [])      -- Play/Pause
  else if code = 0xFF629D then (st, [])      -- Vol Up
  else if code = 0xFFA857 then (st, [])      -- Vol Down
  else if code = 0xFF906F then adjustGlobalBrightness 1 st  -- Arrow Up
  else if code = 0xFFE01F then adjustGlobalBrightness 0 st  -- Arrow Down
  else if code = 0xFF6897 then ({ st with ledMode := 0, ledStatus := 1 }, [])
  else if code = 0xFF30CF then ({ st with ledMode := 1, ledStatus := 1 }, [])
  else if code = 0xFF18E7 then ({ st with ledMode := 2, ledStatus := 1 }, [])
  else if code = 0xFF7A85 then ({ st with ledMode := 3, ledStatus := 1 }, [])
  else if code = 0xFF10EF then ({ st with ledMode := 4, ledStatus := 1 }, [])
  else if code = 0xFF38C7 then ({ st with ledMode := 5, ledStatus := 1 }, [])
  else if code = 0xFF5AA5 then ({ st with ledMode := 6, ledStatus := 1 }, [])
  else if code = 0xFF42BD then ({ st with ledMode := 7, ledStatus := 1 }, [])
  else if code = 0xFF4AB5 then ({ st with ledMode := 8, ledStatus := 1 }, [])
  else if code = 0xFF52AD then ({ st with ledMode := 9, ledStatus := 1 }, [])
  else ({ st with leds := clearBuf, ledStatus := 0 }, [clearBuf])

/-! ## RGB-cycle hue modifier (`DynamicHueModifier`, `src/unnamed/part_000`)

The source keeps a persistent `CRGB dynamicHue = CRGB(255, 0, 0)` and a phase
byte `dynamicHueCycle` in `{0, 1, 2}`.  A call with a strength budget first
raises the phase's target channel; once the target is saturated at 255 it
lowers the source channel; when the source reaches 0 the phase advances
(mod 3) and the remaining strength recurses into the new phase.  The C
recursion (two inner `for` loops that recurse with the *current* strength
counter at a saturation point and otherwise decrement it) is rendered as one
tail recursion making a single channel mutation per call and re-dispatching,
which matches the C control flow exactly: re-entering the function observes
the same `target < 255` test that the inner loops rely on. -/

/-- Persistent RGB-cycle state: `dynamicHue` plus `dynamicHueCycle`. -/
structure HueCycleState where
  red : Nat
  green : Nat
  blue : Nat
  cycle : Nat
  deriving DecidableEq, Repr

/-- `dynamicHue[i]` (FastLED raw channel access: 0 = red, 1 = green,
2 = blue). -/
def getCh (st : HueCycleState) (i : Nat) : Nat :=
  if i = 0 then st.red else if i = 1 then st.green else st.blue

/-- `dynamicHue[i] = v`. -/
def setCh (st : HueCycleState) (i : Nat) (v : Nat) : HueCycleState :=
  if i = 0 then { st with red := v }
  else if i = 1 then { st with green := v }
  else { st with blue := v }

/-- The phase's source channel index (`source` in the source: red cycle
drains red, green cycle drains green, blue cycle drains blue). -/
def srcIdx (c : Nat) : Nat := if c = 0 then 0 else if c = 1 then 1 else 2

/-- The phase's target channel index (`target`). -/
def tgtIdx (c : Nat) : Nat := if c = 0 then 1 else if c = 1 then 2 else 0

/-- The channel a phase never touches. -/
def thirdIdx (c : Nat) : Nat := if c = 0 then 2 else if c = 1 then 0 else 1

/-- `dynamicHue[target]++` on a byte channel. -/
def chanInc (x : Nat) : Nat := (x + 1) % 256

/-- `dynamicHue[source]--` on a byte channel. -/
def chanDec (x : Nat) : Nat := (x + 255) % 256

/-- Termination bookkeeping (not part of the source): weight 1 for a channel
value from which a saturation point is one mutation away (254 before an
increment reaches 255; a value ≡ 1 mod 256 before a decrement reaches 0).
Each recursion that keeps the strength counter consumes one such channel. -/
def chanW (x : Nat) : Nat := if x = 254 ∨ x % 256 = 1 then 1 else 0

/-- Total weight of the three channels; bounds the number of consecutive
recursive calls that do not consume strength. -/
def dhmPhi (st : HueCycleState) : Nat :=
  chanW st.red + chanW st.green + chanW st.blue

theorem chanW_le_one (x : Nat) : chanW x ≤ 1 := by
  unfold chanW; split <;> omega

theorem dhmPhi_le_three (st : HueCycleState) : dhmPhi st ≤ 3 := by
  have h1 := chanW_le_one st.red
  have h2 := chanW_le_one st.green
  have h3 := chanW_le_one st.blue
  unfold dhmPhi; omega

theorem getCh_setCh_self (st : HueCycleState) (i : Nat) (v : Nat) (hi : i < 3) :
    getCh (setCh st i v) i = v := by
  interval_cases i <;> simp [getCh, setCh]

theorem getCh_setCh_other (st : HueCycleState) (i j : Nat) (v : Nat)
    (hi : i < 3) (hj : j < 3) (hne : j ≠ i) : getCh (setCh st i v) j = getCh st j := by
  interval_cases i <;> interval_cases j <;> simp_all [getCh, setCh]

theorem cycle_setCh (st : HueCycleState) (i : Nat) (v : Nat) :
    (setCh st i v).cycle = st.cycle := by
  unfold setCh; split <;> [skip; split] <;> rfl

/-- Updating one channel of the three exchanges its weight in `dhmPhi`. -/
theorem dhmPhi_setCh (st : HueCycleState) (i : Nat) (v : Nat) (hi : i < 3) :
    dhmPhi (setCh st i v) + chanW (getCh st i) = dhmPhi st + chanW v := by
  interval_cases i <;> simp [dhmPhi, setCh, getCh] <;> omega

theorem srcIdx_lt (c : Nat) : srcIdx c < 3 := by
  unfold srcIdx; split <;> [omega; split <;> omega]

theorem tgtIdx_lt (c : Nat) : tgtIdx c < 3 := by
  unfold tgtIdx; split <;> [omega; split <;> omega]

theorem thirdIdx_lt (c : Nat) : thirdIdx c < 3 := by
  unfold thirdIdx; split <;> [omega; split <;> omega]

theorem srcIdx_ne_tgtIdx (c : Nat) : srcIdx c ≠ tgtIdx c := by
  unfold srcIdx tgtIdx; split <;> [omega; split <;> omega]

/-- `dynamicHueCycle = c` (phase assignment; channels untouched). -/
def setCycle (st : HueCycleState) (c : Nat) : HueCycleState := { st with cycle := c }

theorem dhmPhi_setCycle (st : HueCycleState) (c : Nat) :
    dhmPhi (setCycle st c) = dhmPhi st := rfl

theorem getCh_setCycle (st : HueCycleState) (c : Nat) (i : Nat) :
    getCh (setCycle st c) i = getCh st i := rfl

/-- `DynamicHueModifier(int strength)`: see the section header for how the C
loops/recursion collapse to this single tail recursion.  A call with
`strength = 0` is the loop guard `strength > 0` failing; the branch on
`getCh st (tgtIdx st.cycle) < 255` is the source's
`if (dynamicHue[target] < 255)`, the re-read after the write is the source's
saturation test on the just-mutated channel, and the `setCycle` step is
`dynamicHueCycle++; if (dynamicHueCycle > 2) dynamicHueCycle = 0;`. -/
def DynamicHueModifier (strength : Nat) (st : HueCycleState) : HueCycleState :=
  if strength = 0 then st
  else if getCh st (tgtIdx st.cycle) < 255 then
    -- first half of the cycle: raise the target channel
    if getCh (setCh st (tgtIdx st.cycle) (chanInc (getCh st (tgtIdx st.cycle))))
        (tgtIdx st.cycle) = 255 then
      DynamicHueModifier strength
        (setCh st (tgtIdx st.cycle) (chanInc (getCh st (tgtIdx st.cycle))))
    else
      DynamicHueModifier (strength - 1)
        (setCh st (tgtIdx st.cycle) (chanInc (getCh st (tgtIdx st.cycle))))
  else
    -- second half: drain the source channel
    if getCh (setCh st (srcIdx st.cycle) (chanDec (getCh st (srcIdx st.cycle))))
        (srcIdx st.cycle) = 0 then
      DynamicHueModifier strength
        (setCycle (setCh st (srcIdx st.cycle) (chanDec (getCh st (srcIdx st.cycle))))
          (if (setCh st (srcIdx st.cycle) (chanDec (getCh st (srcIdx st.cycle)))).cycle + 1 > 2
           then 0
           else (setCh st (srcIdx st.cycle) (chanDec (getCh st (srcIdx st.cycle)))).cycle + 1))
    else
      DynamicHueModifier (strength - 1)
        (setCh st (srcIdx st.cycle) (chanDec (getCh st (srcIdx st.cycle))))
  termination_by 4 * strength + dhmPhi st
  decreasing_by
  · -- target just saturated: the phase weight drops
    have ht := tgtIdx_lt st.cycle
    have key := dhmPhi_setCh st (tgtIdx st.cycle) (chanInc (getCh st (tgtIdx st.cycle))) ht
    have hv : getCh (setCh st (tgtIdx st.cycle) (chanInc (getCh st (tgtIdx st.cycle))))
        (tgtIdx st.cycle) = chanInc (getCh st (tgtIdx st.cycle)) :=
      getCh_setCh_self st (tgtIdx st.cycle) _ ht
    rename_i h0 hlt h255
    rw [hv] at h255
    have h254 : getCh st (tgtIdx st.cycle) = 254 := by
      unfold chanInc at h255; omega
    have hw1 : chanW (getCh st (tgtIdx st.cycle)) = 1 := by
      rw [h254]; unfold chanW; simp
    have hw0 : chanW (chanInc (getCh st (tgtIdx st.cycle))) = 0 := by
      rw [h254]; unfold chanInc chanW; simp
    omega
  · -- ordinary increment: strength drops
    rename_i h0 hlt h255
    have hphi := dhmPhi_le_three (setCh st (tgtIdx st.cycle)
      (chanInc (getCh st (tgtIdx st.cycle))))
    omega
  · -- source just drained: the phase weight drops (the cycle change is
    -- invisible to `dhmPhi`)
    have hs := srcIdx_lt st.cycle
    have key := dhmPhi_setCh st (srcIdx st.cycle) (chanDec (getCh st (srcIdx st.cycle))) hs
    have hv : getCh (setCh st (srcIdx st.cycle) (chanDec (getCh st (srcIdx st.cycle))))
        (srcIdx st.cycle) = chanDec (getCh st (srcIdx st.cycle)) :=
      getCh_setCh_self st (srcIdx st.cycle) _ hs
    rename_i h0 hge h00
    rw [hv] at h00
    have hmod : getCh st (srcIdx st.cycle) % 256 = 1 := by
      unfold chanDec at h00; omega
    have hw1 : chanW (getCh st (srcIdx st.cycle)) = 1 := by
      unfold chanW; simp [hmod]
    have hw0 : chanW (chanDec (getCh st (srcIdx st.cycle))) = 0 := by
      rw [show chanDec (getCh st (srcIdx st.cycle)) = 0 from h00]
      unfold chanW; simp
    rw [dhmPhi_setCycle]
    omega
  · -- ordinary decrement: strength drops
    rename_i h0 hge h00
    have hphi := dhmPhi_le_three (setCh st (srcIdx st.cycle)
      (chanDec (getCh st (srcIdx st.cycle))))
    omega

/-- The ceiling selected by a brightness preset (`BRIGHTNESS_0` ..
`BRIGHTNESS_4`, following the `if`/`else if` chain of
`adjustGlobalBrightness`). -/
def brightnessVal (p : Nat) : Nat :=
  if p = 0 then BRIGHTNESS_0
  else if p = 1 then BRIGHTNESS_1
  else if p = 2 then BRIGHTNESS_2
  else if p = 3 then BRIGHTNESS_3
  else BRIGHTNESS_4

/-- The preview frame `adjustGlobalBrightness` shows for a preset: the
preset's fixed pixel range(s) overwritten with the new ceiling on the current
buffer. -/
def previewBuf (p : Nat) (buf : Buf) : Buf :=
  if p = 0 then fillRange buf 100 112 ⟨BRIGHTNESS_0, BRIGHTNESS_0, BRIGHTNESS_0⟩
  else if p = 1 then fillRange buf 75 112 ⟨BRIGHTNESS_1, BRIGHTNESS_1, BRIGHTNESS_1⟩
  else if p = 2 then fillRange buf 50 112 ⟨BRIGHTNESS_2, BRIGHTNESS_2, BRIGHTNESS_2⟩
  else if p = 3 then fillRange (fillRange buf 50 112 ⟨BRIGHTNESS_3, BRIGHTNESS_3, BRIGHTNESS_3⟩)
                       0 25 ⟨BRIGHTNESS_3, BRIGHTNESS_3, BRIGHTNESS_3⟩
  else fillRange buf 0 112 ⟨BRIGHTNESS_4, BRIGHTNESS_4, BRIGHTNESS_4⟩

/-- The strength `dynamicVisualizer` feeds into `dynamicHueShift` for a given
raw audio byte (`audioIn/15` above the 200 threshold, `audioIn/70` below). -/
def dvShiftStrength (rawAudio : Nat) : Nat :=
  let audioIn := if rawAudio * 2 > 255 then 255 else rawAudio * 2
  if audioIn > 200 then audioIn / 15 else audioIn / 70

/-- The initial RGB-cycle state of `src/unnamed/part_000`:
`CRGB dynamicHue = CRGB(255, 0, 0); byte dynamicHueCycle = 0;`. -/
def initialHue : HueCycleState := ⟨255, 0, 0, 0⟩

/-- The state after a sequence of `DynamicHueModifier` calls with the given
strengths, starting from the boot state. -/
def runDHM (l : List Nat) : HueCycleState :=
  l.foldl (fun st strength => DynamicHueModifier strength st) initialHue

/-- The inductive invariant of the RGB cycle: the phase's untouched channel
is 0 and either the phase is in its first half (target below 255, source
still saturated at 255) or in its second half (target saturated, source
draining through 1..255). -/
def HueInv (st : HueCycleState) : Prop :=
  getCh st (thirdIdx st.cycle) = 0 ∧
  ((getCh st (tgtIdx st.cycle) < 255 ∧ getCh st (srcIdx st.cycle) = 255) ∨
   (getCh st (tgtIdx st.cycle) = 255 ∧ 1 ≤ getCh st (srcIdx st.cycle) ∧
     getCh st (srcIdx st.cycle) ≤ 255))

/-! ## Theorems -/

/-- Claim C1: for every raw audio byte `b` (0-255), `sampleAudio` returns
`min(2*b, 255)` as the normalized audio level, the normalization is monotonic
non-decreasing in `b`, and `dynamicVisualizer`'s inline normalization of a
serial byte applies the same doubling-and-saturating rule. -/
theorem sampleAudio_min_monotone (b b' : Nat) (hist : List Nat)
    (hb : b ≤ 255) (hbb : b ≤ b') :
    (sampleAudio b hist).1 = min (2 * b) 255 ∧
    (sampleAudio b hist).1 ≤ (sampleAudio b' hist).1 ∧
    dvNormalize b = (sampleAudio b hist).1 := by
  refine ⟨?_, ?_, ?_⟩ <;>
    simp only [sampleAudio, normalizeAudio, dvNormalize] <;>
    split_ifs <;> omega

/-- Witness for C1 at the spec's own scenario: raw byte 200 normalizes to
255, and monotonicity holds from 200 to 210. -/
theorem sampleAudio_min_monotone_witness :
    ((sampleAudio 200 []).1 = min (2 * 200) 255 ∧
     (sampleAudio 200 []).1 ≤ (sampleAudio 210 []).1 ∧
     dvNormalize 200 = (sampleAudio 200 []).1) ∧
    (sampleAudio 200 []).1 = 255 :=
  ⟨sampleAudio_min_monotone 200 210 [] (by decide) (by decide), rfl⟩

/-- Per-zone channel bounds of the clamp, shared by the idempotence/bounds
and the preset-0 scenario theorems. -/
theorem setGlobalBrightness_le (b : Nat) (buf : Buf) :
    (∀ i, i < 100 →
      (setGlobalBrightness b buf i).red ≤ b ∧
      (setGlobalBrightness b buf i).green ≤ b ∧
      (setGlobalBrightness b buf i).blue ≤ b) ∧
    (∀ i, 100 ≤ i → i < 112 →
      (setGlobalBrightness b buf i).red ≤ b * GPU_SCALE_FACTOR ∧
      (setGlobalBrightness b buf i).green ≤ b * GPU_SCALE_FACTOR ∧
      (setGlobalBrightness b buf i).blue ≤ b * GPU_SCALE_FACTOR) := by
  have hmod : b * GPU_SCALE_FACTOR % 256 ≤ b * GPU_SCALE_FACTOR := Nat.mod_le _ _
  refine ⟨fun i hi => ?_, fun i hi hi' => ?_⟩
  · simp only [setGlobalBrightness, if_pos hi]
    refine ⟨?_, ?_, ?_⟩ <;> dsimp only <;> split_ifs <;> omega
  · simp only [setGlobalBrightness, if_neg (by omega : ¬ i < 100), if_pos hi']
    refine ⟨?_, ?_, ?_⟩ <;> dsimp only <;> split_ifs <;> omega

/-- Claim C3: the brightness clamp is idempotent, and after a clamp every
channel of every back-LED pixel (`i < 100`) is at most the ceiling while
every channel of every GPU pixel (`100 ≤ i < 112`) is at most
`ceiling * GPU_SCALE_FACTOR`. -/
theorem setGlobalBrightness_idempotent_bounds (b : Nat) (buf : Buf) :
    setGlobalBrightness b (setGlobalBrightness b buf) = setGlobalBrightness b buf ∧
    (∀ i, i < 100 →
      (setGlobalBrightness b buf i).red ≤ b ∧
      (setGlobalBrightness b buf i).green ≤ b ∧
      (setGlobalBrightness b buf i).blue ≤ b) ∧
    (∀ i, 100 ≤ i → i < 112 →
      (setGlobalBrightness b buf i).red ≤ b * GPU_SCALE_FACTOR ∧
      (setGlobalBrightness b buf i).green ≤ b * GPU_SCALE_FACTOR ∧
      (setGlobalBrightness b buf i).blue ≤ b * GPU_SCALE_FACTOR) := by
  have hmod : b * GPU_SCALE_FACTOR % 256 ≤ b * GPU_SCALE_FACTOR := Nat.mod_le _ _
  refine ⟨funext fun i => ?_, (setGlobalBrightness_le b buf).1,
    (setGlobalBrightness_le b buf).2⟩
  simp only [setGlobalBrightness]
  split_ifs <;> simp_all <;> omega

/-- Witness for C3 at ceiling 20 on a concrete buffer. -/
theorem setGlobalBrightness_idempotent_bounds_witness :
    setGlobalBrightness 20 (setGlobalBrightness 20 (fun _ => ⟨100, 3, 77⟩)) =
      setGlobalBrightness 20 (fun _ => ⟨100, 3, 77⟩) ∧
    (setGlobalBrightness 20 (fun _ => ⟨100, 3, 77⟩) 5).red ≤ 20 ∧
    (setGlobalBrightness 20 (fun _ => ⟨100, 3, 77⟩) 105).red ≤ 20 * GPU_SCALE_FACTOR :=
  ⟨(setGlobalBrightness_idempotent_bounds 20 _).1,
   ((setGlobalBrightness_idempotent_bounds 20 _).2.1 5 (by decide)).1,
   ((setGlobalBrightness_idempotent_bounds 20 _).2.2 105 (by decide) (by decide)).1⟩

/-- Claim C5: with the preset-0 ceiling `BRIGHTNESS_0 = 5`, after the clamp no
channel of a back-LED pixel exceeds 5 and no channel of a GPU pixel exceeds
45 (in fact none exceeds `5 * GPU_SCALE_FACTOR = 25 ≤ 45`). -/
theorem preset0_clamp_bounds (buf : Buf) :
    (∀ i, i < 100 →
      (setGlobalBrightness BRIGHTNESS_0 buf i).red ≤ 5 ∧
      (setGlobalBrightness BRIGHTNESS_0 buf i).green ≤ 5 ∧
      (setGlobalBrightness BRIGHTNESS_0 buf i).blue ≤ 5) ∧
    (∀ i, 100 ≤ i → i < 112 →
      (setGlobalBrightness BRIGHTNESS_0 buf i).red ≤ 45 ∧
      (setGlobalBrightness BRIGHTNESS_0 buf i).green ≤ 45 ∧
      (setGlobalBrightness BRIGHTNESS_0 buf i).blue ≤ 45) := by
  obtain ⟨hback, hgpu⟩ := setGlobalBrightness_le BRIGHTNESS_0 buf
  refine ⟨hback, fun i hi hi' => ?_⟩
  obtain ⟨h1, h2, h3⟩ := hgpu i hi hi'
  refine ⟨?_, ?_, ?_⟩ <;> simp only [BRIGHTNESS_0, GPU_SCALE_FACTOR] at * <;> omega

/-- Witness for C5 on a concrete all-bright buffer. -/
theorem preset0_clamp_bounds_witness :
    (setGlobalBrightness BRIGHTNESS_0 (fun _ => ⟨255, 255, 255⟩) 0).red ≤ 5 ∧
    (setGlobalBrightness BRIGHTNESS_0 (fun _ => ⟨255, 255, 255⟩) 100).red ≤ 45 :=
  ⟨((preset0_clamp_bounds _).1 0 (by decide)).1,
   ((preset0_clamp_bounds _).2 100 (by decide) (by decide)).1⟩

/-- Claim C10: whenever the global ceiling is at least 52 (presets 2, 3, 4
have ceilings 65, 127, 255), the clamp leaves every GPU pixel of every
well-formed buffer unchanged: the threshold `ledBrightness*GPU_SCALE_FACTOR`
is computed at full integer width, hence is at least 260 and above every
8-bit channel. -/
theorem gpu_zone_untouched_above_51 (b : Nat) (buf : Buf)
    (hb : 52 ≤ b)
    (hwf : ∀ i, (buf i).red ≤ 255 ∧ (buf i).green ≤ 255 ∧ (buf i).blue ≤ 255) :
    ∀ i, 100 ≤ i → i < 112 → setGlobalBrightness b buf i = buf i := by
  intro i hi hi'
  obtain ⟨h1, h2, h3⟩ := hwf i
  have hgt : ¬ 255 < b * GPU_SCALE_FACTOR → False := by
    simp only [GPU_SCALE_FACTOR]; omega
  simp only [setGlobalBrightness, if_neg (by omega : ¬ i < 100), if_pos hi']
  have hr : ¬ (buf i).red > b * GPU_SCALE_FACTOR := by
    simp only [GPU_SCALE_FACTOR] at *; omega
  have hg : ¬ (buf i).green > b * GPU_SCALE_FACTOR := by
    simp only [GPU_SCALE_FACTOR] at *; omega
  have hbl : ¬ (buf i).blue > b * GPU_SCALE_FACTOR := by
    simp only [GPU_SCALE_FACTOR] at *; omega
  rw [if_neg hr, if_neg hg, if_neg hbl]

/-- Witness for C10 at ceiling 65 (preset 2) on an all-255 buffer. -/
theorem gpu_zone_untouched_above_51_witness :
    setGlobalBrightness 65 (fun _ => ⟨255, 255, 255⟩) 100 =
      (fun _ => (⟨255, 255, 255⟩ : CRGB) : Buf) 100 :=
  gpu_zone_untouched_above_51 65 _ (by decide)
    (fun _ => ⟨Nat.le.refl, Nat.le.refl, Nat.le.refl⟩) 100 (by decide) (by decide)

/-- One `hueStep` stays below 256. -/
theorem hueStep_lt (h : Nat) (hh : h < 256) : hueStep h < 256 := by
  unfold hueStep; split <;> omega

/-- A single `dynamicHueShift` loop adds its strength to the hue mod 256. -/
theorem dynamicHueShiftVal_eq (n : Nat) :
    ∀ h, h < 256 → dynamicHueShiftVal n h = (h + n) % 256 := by
  induction n with
  | zero => intro h hh; simpa [dynamicHueShiftVal] using (Nat.mod_eq_of_lt hh).symm
  | succ n ih =>
    intro h hh
    have hs := hueStep_lt h hh
    have := ih (hueStep h) hs
    simp only [dynamicHueShiftVal, this]
    unfold hueStep
    split <;> omega

/-- Claim C7: starting from any hue byte, a single `dynamicHueShift(n)` moves
the persistent hue to `(h + n) mod 256`, and any sequence of calls with total
accumulated strength `S` lands on `(h + S) mod 256`. -/
theorem dynamicHueShift_accumulates (st : CHSV) (hh : st.hue < 256) :
    (∀ n, (dynamicHueShift n st).hue = (st.hue + n) % 256) ∧
    ∀ l : List Nat,
      (l.foldl (fun s strength => dynamicHueShift strength s) st).hue =
        (st.hue + l.sum) % 256 := by
  constructor
  · intro n; exact dynamicHueShiftVal_eq n st.hue hh
  · intro l
    induction l generalizing st with
    | nil => simpa using (Nat.mod_eq_of_lt hh).symm
    | cons a l ih =>
      have h1 : (dynamicHueShift a st).hue = (st.hue + a) % 256 :=
        dynamicHueShiftVal_eq a st.hue hh
      have h2 := ih (dynamicHueShift a st) (by rw [h1]; exact Nat.mod_lt _ (by omega))
      simp only [List.foldl_cons, List.sum_cons, h2, h1]
      omega

/-- Witness for C7: hue 10 shifted by 300 and then 212 lands on
`(10 + 512) mod 256 = 10`. -/
theorem dynamicHueShift_accumulates_witness :
    (List.foldl (fun s strength => dynamicHueShift strength s)
      ⟨10, 255, 255⟩ [300, 212]).hue = 10 := by
  have := (dynamicHueShift_accumulates ⟨10, 255, 255⟩ (by decide)).2 [300, 212]
  simpa using this

/-- Pointwise description of the ascending low-side pass: positions from the
loop start up to 36 take their right neighbour's old value, all others are
untouched.  The ascending order means position `j` is written before `j + 1`
is read, so every read sees the pre-pass value. -/
theorem shiftLowLoop_spec (n : Nat) :
    ∀ i, 37 - i = n → ∀ (buf : Buf) (j : Nat),
      shiftLowLoop buf i j = if i ≤ j ∧ j < 37 then buf (j + 1) else buf j := by
  induction n with
  | zero =>
    intro i hi buf j
    unfold shiftLowLoop
    rw [if_neg (by omega), if_neg (by omega)]
  | succ n ih =>
    intro i hi buf j
    have h : i < 37 := by omega
    unfold shiftLowLoop
    rw [if_pos h, ih (i + 1) (by omega)]
    by_cases hj : i + 1 ≤ j ∧ j < 37
    · rw [if_pos hj, if_pos (by omega)]
      unfold setPix
      rw [if_neg (by omega)]
    · rw [if_neg hj]
      unfold setPix
      by_cases hji : j = i
      · rw [if_pos hji, if_pos (by omega), hji]
      · rw [if_neg hji, if_neg (by omega)]

/-- Pointwise description of the descending high-side pass: positions from 38
down to the loop start take their left neighbour's old value, all others are
untouched. -/
theorem shiftHighLoop_spec :
    ∀ i (buf : Buf) (j : Nat),
      shiftHighLoop buf i j = if 37 < j ∧ j ≤ i then buf (j - 1) else buf j := by
  intro i
  induction i with
  | zero =>
    intro buf j
    unfold shiftHighLoop
    rw [if_neg (by omega), if_neg (by omega)]
  | succ i ih =>
    intro buf j
    by_cases h : i + 1 > 37
    · unfold shiftHighLoop
      rw [if_pos h]
      have hred : i + 1 - 1 = i := rfl
      rw [hred, ih]
      by_cases hj : 37 < j ∧ j ≤ i
      · rw [if_pos hj, if_pos (by omega)]
        unfold setPix
        rw [if_neg (by omega)]
      · rw [if_neg hj]
        unfold setPix
        by_cases hji : j = i + 1
        · rw [if_pos hji, if_pos (by omega), hji, hred]
        · rw [if_neg hji, if_neg (by omega)]
    · unfold shiftHighLoop
      rw [if_neg h, if_neg (by omega)]

/-- Claim C6: after one outward-ripple step, every position strictly between
the center 37 and the low boundary 0 holds the pre-shift pixel of its
neighbour towards the center (`i + 1`), every position strictly between 37
and the high boundary 74 holds the pre-shift pixel of `i - 1`, the center
itself is untouched by the shift (it is overwritten afterwards), and
positions outside the ripple zone are untouched — a pure shift with no
read/write aliasing. -/
theorem rippleShift_pure_shift (buf : Buf) (i : Nat) :
    (0 < i → i < 37 → rippleShift buf i = buf (i + 1)) ∧
    (37 < i → i < 74 → rippleShift buf i = buf (i - 1)) ∧
    rippleShift buf 37 = buf 37 ∧
    (74 < i → rippleShift buf i = buf i) := by
  unfold rippleShift
  refine ⟨fun h1 h2 => ?_, fun h1 h2 => ?_, ?_, fun h1 => ?_⟩
  · rw [shiftHighLoop_spec, if_neg (by omega), shiftLowLoop_spec 37 0 rfl,
      if_pos (by omega)]
  · rw [shiftHighLoop_spec, if_pos (by omega), shiftLowLoop_spec 37 0 rfl,
      if_neg (by omega)]
  · rw [shiftHighLoop_spec, if_neg (by omega), shiftLowLoop_spec 37 0 rfl,
      if_neg (by omega)]
  · rw [shiftHighLoop_spec, if_neg (by omega), shiftLowLoop_spec 37 0 rfl,
      if_neg (by omega)]

/-- Witness for C6 on the buffer whose pixel at `k` has red channel `k`:
position 5 takes the old pixel 6, position 40 takes the old pixel 39. -/
theorem rippleShift_pure_shift_witness :
    rippleShift (fun k => ⟨k, 0, 0⟩) 5 = (fun k => (⟨k, 0, 0⟩ : CRGB)) 6 ∧
    rippleShift (fun k => ⟨k, 0, 0⟩) 40 = (fun k => (⟨k, 0, 0⟩ : CRGB)) 39 :=
  ⟨(rippleShift_pure_shift (fun k => ⟨k, 0, 0⟩) 5).1 (by decide) (by decide),
   (rippleShift_pure_shift (fun k => ⟨k, 0, 0⟩) 40).2.1 (by decide) (by decide)⟩

/-- Counterexample to claim C9 as stated: one data-available
`dynamicVisualizer` tick (raw audio byte 50) moves the dynamic hue state from
`(hue 0, sat 255, val 255)` to a state no sequence of `dynamicHueShift` calls
can produce, because the tick assigns `dynamicHue.val = audioIn` directly
while `dynamicHueShift` never changes `val`. -/
theorem dynamicVisualizerHue_not_shift_only :
    ¬ ∃ n : Nat, dynamicVisualizerHue ⟨0, 255, 255⟩ 50 = dynamicHueShift n ⟨0, 255, 255⟩ := by
  rintro ⟨n, h⟩
  have hval : (dynamicVisualizerHue ⟨0, 255, 255⟩ 50).val = 100 := rfl
  have hval' : (dynamicHueShift n ⟨0, 255, 255⟩).val = 255 := rfl
  rw [h, hval'] at hval
  exact absurd hval (by omega)

/-- Amended claim C9: in a `dynamicVisualizer` tick the `hue` field of the
dynamic hue state is advanced only through `dynamicHueShift` (with the
audio-derived strength) and `sat` is untouched, but `val` is assigned
directly to the normalized audio level — `dynamicHueShift` itself never
changes `val`. -/
theorem dynamicVisualizerHue_fields (st : CHSV) (rawAudio : Nat) :
    (dynamicVisualizerHue st rawAudio).hue =
      (dynamicHueShift (dvShiftStrength rawAudio) st).hue ∧
    (dynamicVisualizerHue st rawAudio).sat = st.sat ∧
    (dynamicVisualizerHue st rawAudio).val = normalizeAudio rawAudio ∧
    ∀ n s, (dynamicHueShift n s).val = s.val := by
  refine ⟨?_, ?_, ?_, fun n s => rfl⟩
  · simp only [dynamicVisualizerHue, dvShiftStrength, dynamicHueShift]
    split_ifs <;> simp
  · simp only [dynamicVisualizerHue, dynamicHueShift]
    split_ifs <;> simp
  · simp [dynamicVisualizerHue, normalizeAudio]

/-- Claim C2: the dispatcher is an exact lookup table (being a function of
the code, it is deterministic, and the conjuncts below cover every 32-bit
code): each of the ten mode-select codes sets `{ledStatus := 1, ledMode := N}`
for its digit `N`, the ten listed no-op codes change nothing, the two arrow
codes invoke the brightness action, and every code absent from the table
takes the `default` branch, which forces `ledStatus = 0` (and clears the
strip). -/
theorem IRHandler_exact_lookup (code : Nat) (st : CtrlState) :
    (∀ n, n < 10 → code = irModeCodes.getD n 0 →
      IRHandler code st = ({ st with ledMode := n, ledStatus := 1 }, [])) ∧
    (code ∈ irNoopCodes → IRHandler code st = (st, [])) ∧
    (code = 0xFF906F → IRHandler code st = adjustGlobalBrightness 1 st) ∧
    (code = 0xFFE01F → IRHandler code st = adjustGlobalBrightness 0 st) ∧
    (code ∉ irTableCodes →
      IRHandler code st = ({ st with leds := clearBuf, ledStatus := 0 }, [clearBuf]) ∧
      (IRHandler code st).1.ledStatus = 0) := by
  refine ⟨fun n hn hc => ?_, fun hc => ?_, fun hc => ?_, fun hc => ?_, fun hc => ?_⟩
  · interval_cases n <;> simp only [irModeCodes, List.getD] at hc <;> subst hc <;>
      simp [IRHandler]
  · simp only [irNoopCodes, List.mem_cons, List.not_mem_nil, or_false] at hc
    rcases hc with rfl | rfl | rfl | rfl | rfl | rfl | rfl | rfl | rfl | rfl <;>
      simp [IRHandler]
  · subst hc; simp [IRHandler]
  · subst hc; simp [IRHandler]
  · have h1 : code ≠ 0xFFFFFFFF := fun h => hc (by rw [h]; decide)
    have h2 : code ≠ 0xFFA25D := fun h => hc (by rw [h]; decide)
    have h3 : code ≠ 0xFFE21D := fun h => hc (by rw [h]; decide)
    have h4 : code ≠ 0xFF9867 := fun h => hc (by rw [h]; decide)
    have h5 : code ≠ 0xFFB04F := fun h => hc (by rw [h]; decide)
    have h6 : code ≠ 0xFFC23D := fun h => hc (by rw [h]; decide)
    have h7 : code ≠ 0xFF22DD := fun h => hc (by rw [h]; decide)
    have h8 : code ≠ 0xFF02FD := fun h => hc (by rw [h]; decide)
    have h9 : code ≠ 0xFF629D := fun h => hc (by rw [h]; decide)
    have h10 : code ≠ 0xFFA857 := fun h => hc (by rw [h]; decide)
    have h11 : code ≠ 0xFF906F := fun h => hc (by rw [h]; decide)
    have h12 : code ≠ 0xFFE01F := fun h => hc (by rw [h]; decide)
    have h13 : code ≠ 0xFF6897 := fun h => hc (by rw [h]; decide)
    have h14 : code ≠ 0xFF30CF := fun h => hc (by rw [h]; decide)
    have h15 : code ≠ 0xFF18E7 := fun h => hc (by rw [h]; decide)
    have h16 : code ≠ 0xFF7A85 := fun h => hc (by rw [h]; decide)
    have h17 : code ≠ 0xFF10EF := fun h => hc (by rw [h]; decide)
    have h18 : code ≠ 0xFF38C7 := fun h => hc (by rw [h]; decide)
    have h19 : code ≠ 0xFF5AA5 := fun h => hc (by rw [h]; decide)
    have h20 : code ≠ 0xFF42BD := fun h => hc (by rw [h]; decide)
    have h21 : code ≠ 0xFF4AB5 := fun h => hc (by rw [h]; decide)
    have h22 : code ≠ 0xFF52AD := fun h => hc (by rw [h]; decide)
    constructor <;>
      simp [IRHandler, h1, h2, h3, h4, h5, h6, h7, h8, h9, h10, h11, h12,
        h13, h14, h15, h16, h17, h18, h19, h20, h21, h22]

/-- Witness for C2: digit code 8 turns mode 8 on, the repeat code is a no-op,
and the garbled code `0x123456` (absent from the table) forces status off. -/
theorem IRHandler_exact_lookup_witness :
    IRHandler 0xFF4AB5 ⟨0, 0, 255, 4, clearBuf⟩ = (⟨8, 1, 255, 4, clearBuf⟩, []) ∧
    IRHandler 0xFFFFFFFF ⟨9, 1, 255, 4, clearBuf⟩ = (⟨9, 1, 255, 4, clearBuf⟩, []) ∧
    (IRHandler 0x123456 ⟨9, 1, 255, 4, clearBuf⟩).1.ledStatus = 0 :=
  ⟨(IRHandler_exact_lookup 0xFF4AB5 _).1 8 (by decide) (by decide),
   (IRHandler_exact_lookup 0xFFFFFFFF _).2.1 (by decide),
   ((IRHandler_exact_lookup 0x123456 _).2.2.2.2 (by decide)).2⟩

/-- Counterexample to claim C4 as stated: from a state with status on
(preset 2), the brightness-up action finishes with `ledStatus` still 1 —
`adjustGlobalBrightness` never writes `ledStatus`, so the Mode State does
not end with status off. -/
theorem adjustGlobalBrightness_keeps_status :
    (adjustGlobalBrightness 1 ⟨9, 1, 255, 2, clearBuf⟩).1.ledStatus ≠ 0 := by
  simp [adjustGlobalBrightness]

/-- Amended claim C4: for every starting preset `p ≤ 4`, brightness-up sets
the preset to `min(p+1, 4)` and brightness-down to `p - 1` (clamped at the
ends); either action then sets the ceiling for the new preset, shows a
preview of it on the preset's fixed pixel range(s) followed by the cleared
frame of `off()`, and leaves the buffer cleared — but `ledStatus` and
`ledMode` are simply left unchanged (so the system ends up off only if it
already was off, the normal case given the IR-occlusion convention). -/
theorem adjustGlobalBrightness_steps_preview_off (st : CtrlState)
    (hp : st.ledBrightnessPreset ≤ 4) :
    (adjustGlobalBrightness 1 st).1.ledBrightnessPreset =
      min (st.ledBrightnessPreset + 1) 4 ∧
    (adjustGlobalBrightness 0 st).1.ledBrightnessPreset =
      st.ledBrightnessPreset - 1 ∧
    ∀ u, u = 0 ∨ u = 1 →
      (adjustGlobalBrightness u st).1.leds = clearBuf ∧
      (adjustGlobalBrightness u st).1.ledStatus = st.ledStatus ∧
      (adjustGlobalBrightness u st).1.ledMode = st.ledMode ∧
      (adjustGlobalBrightness u st).1.ledBrightness =
        brightnessVal (adjustGlobalBrightness u st).1.ledBrightnessPreset ∧
      (adjustGlobalBrightness u st).2 =
        [previewBuf (adjustGlobalBrightness u st).1.ledBrightnessPreset st.leds,
         clearBuf] := by
  have h5 : st.ledBrightnessPreset = 0 ∨ st.ledBrightnessPreset = 1 ∨
      st.ledBrightnessPreset = 2 ∨ st.ledBrightnessPreset = 3 ∨
      st.ledBrightnessPreset = 4 := by omega
  refine ⟨?_, ?_, fun u hu => ?_⟩
  · rcases h5 with h | h | h | h | h <;>
      simp [adjustGlobalBrightness, h]
  · rcases h5 with h | h | h | h | h <;>
      simp [adjustGlobalBrightness, h]
  · rcases hu with rfl | rfl <;> rcases h5 with h | h | h | h | h <;>
      simp [adjustGlobalBrightness, h, brightnessVal, previewBuf]

/-- Witness for amended C4 from the off state at preset 2: up lands on
preset 3, the buffer ends cleared and the status stays 0. -/
theorem adjustGlobalBrightness_steps_preview_off_witness :
    (adjustGlobalBrightness 1 ⟨9, 0, 65, 2, clearBuf⟩).1.ledBrightnessPreset =
      min (2 + 1) 4 ∧
    (adjustGlobalBrightness 1 ⟨9, 0, 65, 2, clearBuf⟩).1.ledStatus = 0 :=
  ⟨(adjustGlobalBrightness_steps_preview_off _ (by decide)).1,
   ((adjustGlobalBrightness_steps_preview_off _ (by decide)).2.2 1 (Or.inr rfl)).2.1⟩

/-- The three channel indices of a phase, for every cycle byte (junk cycle
values follow the `else` branches of the source's dispatch). -/
theorem idx_cases (c : Nat) :
    (srcIdx c = 0 ∧ tgtIdx c = 1 ∧ thirdIdx c = 2) ∨
    (srcIdx c = 1 ∧ tgtIdx c = 2 ∧ thirdIdx c = 0) ∨
    (srcIdx c = 2 ∧ tgtIdx c = 0 ∧ thirdIdx c = 1) := by
  unfold srcIdx tgtIdx thirdIdx
  split_ifs <;> simp

theorem tgtIdx_ne_thirdIdx (c : Nat) : tgtIdx c ≠ thirdIdx c := by
  unfold tgtIdx thirdIdx; split_ifs <;> omega

theorem srcIdx_ne_thirdIdx (c : Nat) : srcIdx c ≠ thirdIdx c := by
  unfold srcIdx thirdIdx; split_ifs <;> omega

/-- Advancing the cycle (`dynamicHueCycle++` with wrap) rotates the three
channel roles: the old target becomes the new source, the old untouched
channel becomes the new target, the old source becomes untouched. -/
theorem handoff_idx (c : Nat) :
    srcIdx (if c + 1 > 2 then 0 else c + 1) = tgtIdx c ∧
    tgtIdx (if c + 1 > 2 then 0 else c + 1) = thirdIdx c ∧
    thirdIdx (if c + 1 > 2 then 0 else c + 1) = srcIdx c := by
  have hc : c = 0 ∨ c = 1 ∨ 2 ≤ c := by omega
  rcases hc with rfl | rfl | hc
  · decide
  · decide
  · rw [if_pos (show c + 1 > 2 by omega)]
    refine ⟨?_, ?_, ?_⟩ <;>
      simp [srcIdx, tgtIdx, thirdIdx, show c ≠ 0 by omega, show c ≠ 1 by omega]

theorem cycle_setCycle (st : HueCycleState) (c : Nat) : (setCycle st c).cycle = c := rfl

theorem DynamicHueModifier_zero (st : HueCycleState) : DynamicHueModifier 0 st = st := by
  unfold DynamicHueModifier; rw [if_pos rfl]

/-- `DynamicHueModifier` preserves the cycle invariant (strong induction on
the same measure that proves termination). -/
theorem DynamicHueModifier_preserves (μ : Nat) :
    ∀ n st, 4 * n + dhmPhi st ≤ μ → HueInv st → HueInv (DynamicHueModifier n st) := by
  induction μ with
  | zero =>
    intro n st hμ hinv
    have hn : n = 0 := by omega
    subst hn
    rw [DynamicHueModifier_zero]
    exact hinv
  | succ μ ih =>
    intro n st hμ hinv
    by_cases hn : n = 0
    · subst hn; rw [DynamicHueModifier_zero]; exact hinv
    obtain ⟨h0, hbr⟩ := hinv
    have hst := srcIdx_ne_tgtIdx st.cycle
    have hut := tgtIdx_ne_thirdIdx st.cycle
    have hus := srcIdx_ne_thirdIdx st.cycle
    have hs3 := srcIdx_lt st.cycle
    have ht3 := tgtIdx_lt st.cycle
    have hu3 := thirdIdx_lt st.cycle
    unfold DynamicHueModifier
    rw [if_neg hn]
    by_cases hA : getCh st (tgtIdx st.cycle) < 255
    · -- first half: raise the target
      rw [if_pos hA]
      have hsrc : getCh st (srcIdx st.cycle) = 255 := by
        rcases hbr with ⟨_, h⟩ | ⟨h, _⟩
        · exact h
        · omega
      have hinc : chanInc (getCh st (tgtIdx st.cycle)) = getCh st (tgtIdx st.cycle) + 1 := by
        unfold chanInc; omega
      have hget_t : getCh (setCh st (tgtIdx st.cycle) (chanInc (getCh st (tgtIdx st.cycle))))
          (tgtIdx st.cycle) = getCh st (tgtIdx st.cycle) + 1 := by
        rw [getCh_setCh_self st _ _ ht3, hinc]
      have hget_s : getCh (setCh st (tgtIdx st.cycle) (chanInc (getCh st (tgtIdx st.cycle))))
          (srcIdx st.cycle) = 255 := by
        rw [getCh_setCh_other st _ _ _ ht3 hs3 hst, hsrc]
      have hget_u : getCh (setCh st (tgtIdx st.cycle) (chanInc (getCh st (tgtIdx st.cycle))))
          (thirdIdx st.cycle) = 0 := by
        rw [getCh_setCh_other st _ _ _ ht3 hu3 (Ne.symm hut), h0]
      have hcyc : (setCh st (tgtIdx st.cycle) (chanInc (getCh st (tgtIdx st.cycle)))).cycle
          = st.cycle := cycle_setCh st _ _
      have hkey := dhmPhi_setCh st (tgtIdx st.cycle)
        (chanInc (getCh st (tgtIdx st.cycle))) ht3
      have hphi' := dhmPhi_le_three (setCh st (tgtIdx st.cycle)
        (chanInc (getCh st (tgtIdx st.cycle))))
      by_cases h255 : getCh (setCh st (tgtIdx st.cycle) (chanInc (getCh st (tgtIdx st.cycle))))
          (tgtIdx st.cycle) = 255
      · rw [if_pos h255]
        have h254 : getCh st (tgtIdx st.cycle) = 254 := by omega
        have hw1 : chanW (getCh st (tgtIdx st.cycle)) = 1 := by
          rw [h254]; unfold chanW; simp
        have hw0 : chanW (chanInc (getCh st (tgtIdx st.cycle))) = 0 := by
          rw [h254]; unfold chanInc chanW; simp
        refine ih n _ (by omega) ⟨?_, Or.inr ⟨?_, ?_, ?_⟩⟩ <;> rw [hcyc]
        · exact hget_u
        · exact h255
        · omega
        · omega
      · rw [if_neg h255]
        refine ih (n - 1) _ (by omega) ⟨?_, Or.inl ⟨?_, ?_⟩⟩ <;> rw [hcyc]
        · exact hget_u
        · omega
        · exact hget_s
    · -- second half: drain the source
      rw [if_neg hA]
      have htgt : getCh st (tgtIdx st.cycle) = 255 := by
        rcases hbr with ⟨h, _⟩ | ⟨h, _⟩
        · omega
        · exact h
      have hsrc1 : 1 ≤ getCh st (srcIdx st.cycle) := by
        rcases hbr with ⟨h, _⟩ | ⟨_, h, _⟩
        · omega
        · exact h
      have hsrc255 : getCh st (srcIdx st.cycle) ≤ 255 := by
        rcases hbr with ⟨_, h⟩ | ⟨_, _, h⟩
        · omega
        · exact h
      have hdec : chanDec (getCh st (srcIdx st.cycle)) = getCh st (srcIdx st.cycle) - 1 := by
        unfold chanDec; omega
      have hget_s : getCh (setCh st (srcIdx st.cycle) (chanDec (getCh st (srcIdx st.cycle))))
          (srcIdx st.cycle) = getCh st (srcIdx st.cycle) - 1 := by
        rw [getCh_setCh_self st _ _ hs3, hdec]
      have hget_t : getCh (setCh st (srcIdx st.cycle) (chanDec (getCh st (srcIdx st.cycle))))
          (tgtIdx st.cycle) = 255 := by
        rw [getCh_setCh_other st _ _ _ hs3 ht3 (Ne.symm hst), htgt]
      have hget_u : getCh (setCh st (srcIdx st.cycle) (chanDec (getCh st (srcIdx st.cycle))))
          (thirdIdx st.cycle) = 0 := by
        rw [getCh_setCh_other st _ _ _ hs3 hu3 (Ne.symm hus), h0]
      have hcyc : (setCh st (srcIdx st.cycle) (chanDec (getCh st (srcIdx st.cycle)))).cycle
          = st.cycle := cycle_setCh st _ _
      have hkey := dhmPhi_setCh st (srcIdx st.cycle)
        (chanDec (getCh st (srcIdx st.cycle))) hs3
      have hphi' := dhmPhi_le_three (setCh st (srcIdx st.cycle)
        (chanDec (getCh st (srcIdx st.cycle))))
      by_cases hz : getCh (setCh st (srcIdx st.cycle) (chanDec (getCh st (srcIdx st.cycle))))
          (srcIdx st.cycle) = 0
      · rw [if_pos hz]
        have hx1 : getCh st (srcIdx st.cycle) = 1 := by omega
        have hw1 : chanW (getCh st (srcIdx st.cycle)) = 1 := by
          rw [hx1]; unfold chanW; simp
        have hw0 : chanW (chanDec (getCh st (srcIdx st.cycle))) = 0 := by
          rw [hdec, hx1]; unfold chanW; simp
        obtain ⟨hidx_s, hidx_t, hidx_u⟩ := handoff_idx st.cycle
        refine ih n _ ?_ ⟨?_, Or.inl ⟨?_, ?_⟩⟩
        · rw [dhmPhi_setCycle]; omega
        · rw [getCh_setCycle, cycle_setCycle, hcyc, hidx_u, hget_s, hx1]
        · rw [getCh_setCycle, cycle_setCycle, hcyc, hidx_t, hget_u]; omega
        · rw [getCh_setCycle, cycle_setCycle, hcyc, hidx_s, hget_t]
      · rw [if_neg hz]
        refine ih (n - 1) _ (by omega) ⟨?_, Or.inr ⟨?_, ?_, ?_⟩⟩ <;> rw [hcyc]
        · exact hget_u
        · exact hget_t
        · omega
        · omega

/-- The invariant yields the claimed observable facts about the channels. -/
theorem HueInv_channels (st : HueCycleState) (h : HueInv st) :
    (st.red = 0 ∨ st.green = 0 ∨ st.blue = 0) ∧
    (st.red = 255 ∨ st.green = 255 ∨ st.blue = 255) ∧
    st.red ≤ 255 ∧ st.green ≤ 255 ∧ st.blue ≤ 255 := by
  obtain ⟨h0, hbr⟩ := h
  rcases idx_cases st.cycle with ⟨hs, ht, hu⟩ | ⟨hs, ht, hu⟩ | ⟨hs, ht, hu⟩ <;>
    rw [hs, ht] at hbr <;> rw [hu] at h0 <;>
    simp only [getCh] at h0 hbr <;> norm_num at h0 hbr <;> omega

/-- Claim C8: starting from `CRGB(255, 0, 0)` in phase 0, after any sequence
of `DynamicHueModifier` calls with non-negative strengths the persistent RGB
state has at least one channel equal to 0 and at least one equal to 255 (this
holds at every call boundary, with no phase-handoff exception needed), and no
channel ever wraps or overflows: all stay within 0..255. -/
theorem DynamicHueModifier_cycle_invariant (l : List Nat) :
    ((runDHM l).red = 0 ∨ (runDHM l).green = 0 ∨ (runDHM l).blue = 0) ∧
    ((runDHM l).red = 255 ∨ (runDHM l).green = 255 ∨ (runDHM l).blue = 255) ∧
    (runDHM l).red ≤ 255 ∧ (runDHM l).green ≤ 255 ∧ (runDHM l).blue ≤ 255 := by
  have hinit : HueInv initialHue := by
    refine ⟨rfl, Or.inl ⟨by decide, rfl⟩⟩
  have hfold : ∀ (l' : List Nat) (st : HueCycleState), HueInv st →
      HueInv (l'.foldl (fun st strength => DynamicHueModifier strength st) st) := by
    intro l'
    induction l' with
    | nil => intro st h; exact h
    | cons a l' ih =>
      intro st h
      rw [List.foldl_cons]
      exact ih _ (DynamicHueModifier_preserves (4 * a + dhmPhi st) a st (le_refl _) h)
  exact HueInv_channels _ (hfold l initialHue hinit)

end LEDController
